import Mathlib

set_option maxRecDepth 8192

/-!
Shallow embedding of the flexstack client SDK payload-construction and
validation logic (src/flexstack/models/{image,audio,llm,info}.py).

Python dictionaries are modelled as insertion-ordered association lists
`List (String × α)`; `dget` is key lookup (first occurrence), `dset` is
Python dict item assignment (replace in place if present, else append),
`dupdate` is `dict.update`.  Fallible calls return `Except PyError _`;
the outbound HTTP request that a successful call would hand to the
transport is the returned value.
-/

/-- JSON-ish scalar values appearing in the payloads of this SDK. -/
inductive JVal : Type where
  | s (v : String)
  | i (v : Int)
  | f (v : ℚ)
  | b (v : Bool)
  | null
  deriving DecidableEq, Repr

/-- HTTP method of an outbound request. -/
inductive Method : Type where
  | get
  | post
  deriving DecidableEq, Repr

/-- Errors raised locally by the SDK: `validationError` embeds Python
`ValueError` (the spec's ValidationError), `keyError` a Python `KeyError`,
`httpError` the `requests.HTTPError` raised by `raise_for_status`. -/
inductive PyError : Type where
  | validationError (msg : String)
  | keyError (key : String)
  | httpError (status : Nat)
  deriving DecidableEq, Repr

/-- Dictionary lookup: value at the first occurrence of key `k`. -/
def dget {α : Type} (d : List (String × α)) (k : String) : Option α :=
  match d with
  | [] => none
  | (k2, v) :: rest => if k2 = k then some v else dget rest k

/-- Python dict item assignment `d[k] = v`: if `k` is present its (unique)
entry is replaced in place (insertion order kept), otherwise `(k, v)` is
appended. -/
def dset {α : Type} (d : List (String × α)) (k : String) (v : α) : List (String × α) :=
  match d with
  | [] => [(k, v)]
  | (k2, w) :: rest => if k2 = k then (k, v) :: rest else (k2, w) :: dset rest k v

/-- Python `d.update(l)`: item assignment for each pair of `l` in order. -/
def dupdate {α : Type} (d l : List (String × α)) : List (String × α) :=
  l.foldl (fun acc p => dset acc p.1 p.2) d

/-- Python `d[k] = dflt if k not in d else d[k]` (the backfill idiom of
`create_txt2audio`). -/
def dsetdefault {α : Type} (d : List (String × α)) (k : String) (v : α) :
    List (String × α) :=
  dset d k ((dget d k).getD v)

section DictLemmas

variable {α : Type}

theorem dget_eq_none_iff (d : List (String × α)) (k : String) :
    dget d k = none ↔ k ∉ d.map Prod.fst := by
  induction d with
  | nil => simp [dget]
  | cons p rest ih =>
    obtain ⟨k2, v⟩ := p
    by_cases h : k2 = k
    · subst h
      simp [dget]
    · simp only [dget, if_neg h, List.map_cons, List.mem_cons, ih]
      push_neg
      exact ⟨fun hn => ⟨fun hh => h hh.symm, hn⟩, fun hh => hh.2⟩

theorem dget_dset_self (d : List (String × α)) (k : String) (v : α) :
    dget (dset d k v) k = some v := by
  induction d with
  | nil => simp [dset, dget]
  | cons p rest ih =>
    obtain ⟨k2, v2⟩ := p
    by_cases h : k2 = k <;> simp [dset, dget, h, ih]

theorem dget_dset_ne (d : List (String × α)) (k k2 : String) (v : α)
    (h : k2 ≠ k) : dget (dset d k v) k2 = dget d k2 := by
  induction d with
  | nil => simp [dset, dget, Ne.symm h]
  | cons p rest ih =>
    obtain ⟨k3, v3⟩ := p
    by_cases h3 : k3 = k
    · subst h3
      simp [dset, dget, Ne.symm h, fun hh : k3 = k2 => h (hh ▸ rfl)]
    · by_cases h2 : k3 = k2 <;> simp [dset, dget, h3, h2, h, ih]

theorem dget_dsetdefault_self (d : List (String × α)) (k : String) (v : α) :
    dget (dsetdefault d k v) k = some ((dget d k).getD v) :=
  dget_dset_self d k _

theorem dget_dsetdefault_ne (d : List (String × α)) (k k2 : String) (v : α)
    (h : k2 ≠ k) : dget (dsetdefault d k v) k2 = dget d k2 :=
  dget_dset_ne d k k2 _ h

theorem map_fst_dset (d : List (String × α)) (k : String) (v : α) :
    (dset d k v).map Prod.fst =
      if (dget d k).isSome then d.map Prod.fst else d.map Prod.fst ++ [k] := by
  induction d with
  | nil => simp [dset, dget]
  | cons p rest ih =>
    obtain ⟨k2, v2⟩ := p
    by_cases h : k2 = k
    · simp [dset, dget, h]
    · by_cases hs : (dget rest k).isSome <;> simp [dset, dget, h, hs, ih]

theorem nodup_map_fst_dset (d : List (String × α)) (k : String) (v : α)
    (h : (d.map Prod.fst).Nodup) : ((dset d k v).map Prod.fst).Nodup := by
  rw [map_fst_dset]
  by_cases hs : (dget d k).isSome
  · simpa [hs] using h
  · have hk : k ∉ d.map Prod.fst := by
      rw [← dget_eq_none_iff]
      exact Option.not_isSome_iff_eq_none.mp hs
    rw [if_neg hs]
    refine List.Nodup.append h (List.nodup_singleton k) ?_
    intro a ha hb
    rw [List.mem_singleton] at hb
    subst hb
    exact hk ha

theorem dget_dupdate_of_none (d l : List (String × α)) (k : String)
    (h : dget l k = none) : dget (dupdate d l) k = dget d k := by
  induction l generalizing d with
  | nil => rfl
  | cons p rest ih =>
    obtain ⟨k1, v1⟩ := p
    by_cases hk : k1 = k
    · simp [dget, hk] at h
    · simp only [dget, hk, if_false] at h
      show dget (dupdate (dset d k1 v1) rest) k = dget d k
      rw [ih _ h, dget_dset_ne _ _ _ _ (fun hh => hk hh.symm)]

theorem dget_dupdate_of_some (d l : List (String × α)) (k : String) (v : α)
    (hnd : (l.map Prod.fst).Nodup) (h : dget l k = some v) :
    dget (dupdate d l) k = some v := by
  induction l generalizing d with
  | nil => simp [dget] at h
  | cons p rest ih =>
    obtain ⟨k1, v1⟩ := p
    simp only [List.map_cons, List.nodup_cons] at hnd
    by_cases hk : k1 = k
    · subst hk
      simp only [dget, if_true] at h
      obtain rfl : v1 = v := by simpa using h
      show dget (dupdate (dset d k1 v1) rest) k1 = some v1
      rw [dget_dupdate_of_none _ _ _ ((dget_eq_none_iff _ _).mpr hnd.1),
        dget_dset_self]
    · simp only [dget, hk, if_false] at h
      exact ih _ hnd.2 h

end DictLemmas

/-! ## llm.py — TextGeneration -/

/-- A chat message, modelled as an ordered dictionary (arbitrary keys, so
malformed messages are representable). -/
abbrev Msg := List (String × JVal)

/-- Error text of the key-set check in `text_generation` / `generate_text_stream`. -/
def msgKeysErr : String :=
  "Message must contain \x27role\x27 and \x27content\x27. Example: [\x7b\x27role\x27: \x27user\x27, \x27content\x27: \x27Hello\x27\x7d]"

/-- Error text of the role check in `text_generation` / `generate_text_stream`. -/
def msgRoleErr : String :=
  "Message role must be \x27system\x27, \x27user\x27 or \x27assistant\x27. Example: [\x7b\x27role\x27: \x27user\x27, \x27content\x27: \x27Hello\x27\x7d]"

/-- The three admissible roles (`['system', 'user', 'assistant']`). -/
def allowedRoles : List String := ["system", "user", "assistant"]

/-- Python `set(message.keys()) == set(['role', 'content'])`. -/
def keysetOk (m : Msg) : Bool :=
  decide ((m.map Prod.fst).toFinset = ({"role", "content"} : Finset String))

/-- Per-message validation loop body of `text_generation` (llm.py lines 35-40):
key-set must be exactly the pair (role, content), and the role value must be one of
the three allowed strings (a non-string role value also fails the `in` test). -/
def validateMessage (m : Msg) : Except PyError Unit :=
  if keysetOk m then
    match dget m "role" with
    | some (JVal.s r) =>
      if r ∈ allowedRoles then Except.ok () else Except.error (.validationError msgRoleErr)
    | _ => Except.error (.validationError msgRoleErr)
  else Except.error (.validationError msgKeysErr)

/-- The `for message in messages` validation loop (stops at the first bad one). -/
def validateMessages : List Msg → Except PyError Unit
  | [] => Except.ok ()
  | m :: rest => do
      validateMessage m
      validateMessages rest

/-- Outbound chat-completion POST request. -/
structure ChatRequest where
  url : String
  messages : List Msg
  configs : List (String × JVal)
  deriving DecidableEq, Repr

/-- Embeds `TextGeneration.text_generation`: validate the messages, then POST
the messages-plus-configs payload to the text_completion endpoint. -/
def text_generation (base : String) (messages : List Msg) (model : String)
    (temperature : ℚ) (top_k : Int) (top_p : ℚ) (max_tokens : Int) :
    Except PyError ChatRequest := do
  validateMessages messages
  pure { url := base ++ "/ai/text_completion",
         messages := messages,
         configs := [("model", JVal.s model), ("temperature", JVal.f temperature),
                     ("top_k", JVal.i top_k), ("top_p", JVal.f top_p),
                     ("max_new_tokens", JVal.i max_tokens)] }

/-- The HTTP response observed by the streaming call: final status code and
the body split into lines. -/
structure HttpResponse where
  status : Nat
  lines : List String
  deriving DecidableEq, Repr

/-- Embeds `requests.Response.raise_for_status`, which raises `HTTPError`
exactly for 4xx client-error and 5xx server-error status codes. -/
def raise_for_status (r : HttpResponse) : Except PyError Unit :=
  if 400 ≤ r.status ∧ r.status < 600 then Except.error (.httpError r.status)
  else Except.ok ()

/-- Embeds `TextGeneration.generate_text_stream`: same message validation as
`text_generation`; opens the streaming POST, calls `raise_for_status` on the
response, then yields each non-empty line of the body in order.  The value is
the sequence of yielded lines. -/
def generate_text_stream (base : String) (messages : List Msg) (model : String)
    (temperature : ℚ) (top_k : Int) (top_p : ℚ) (max_tokens : Int)
    (response : HttpResponse) : Except PyError (List String) := do
  validateMessages messages
  raise_for_status response
  pure (response.lines.filter (fun l => l != ""))

/-! ## info.py — FlexstackInfo -/

/-- Outbound GET request with query parameters (a `None`-valued parameter is
an entry whose value is `none`). -/
structure GetRequest where
  method : Method
  url : String
  params : List (String × Option String)
  deriving DecidableEq, Repr

/-- The task-name enum accepted by `get_models`. -/
def valid_tasks : List String :=
  ["image_generation", "video_generation", "text_completion", "audio_generation", "text_embedding"]

/-- Error text of the task-name check in `get_models`. -/
def get_models_err : String :=
  "task must be one of [\"image_generation\", \"video_generation\", \"text_completion\", \"audio_generation\", \"text_embedding\"]"

/-- Embeds `FlexstackInfo.get_models`: reject an unknown task name locally, else GET
the models endpoint for that task. -/
def get_models (base task : String) : Except PyError GetRequest :=
  if task ∈ valid_tasks then
    Except.ok { method := Method.get, url := base ++ "/models/" ++ task, params := [] }
  else Except.error (.validationError get_models_err)

/-! ## image.py — ImageGeneration -/

/-- Outbound prompt-plus-configs POST request (creation calls). -/
structure PostRequest where
  url : String
  prompt : String
  configs : List (String × JVal)
  deriving DecidableEq, Repr

/-- Outbound result-retrieval request: POST with a JSON body, or GET with the
task id in the URL path and an empty body. -/
structure ResultRequest where
  method : Method
  url : String
  body : List (String × JVal)
  deriving DecidableEq, Repr

/-- Embeds `ImageGeneration.create_config`: pure dictionary builder, no
validation; `lora_weight_url` is always the empty string. -/
def create_config (rotation : String) (steps : Int) (negative_prompt : String)
    (enhance_prompt : Bool) : List (String × JVal) :=
  [("rotation", JVal.s rotation), ("steps", JVal.i steps),
   ("negative_prompt", JVal.s negative_prompt), ("lora_weight_url", JVal.s ""),
   ("enhance_prompt", JVal.b enhance_prompt)]

/-- Embeds `ImageGeneration.get_result_sd_task`: POST a task_id JSON body to
the fixed sd result endpoint. -/
def get_result_sd_task (base task_id : String) : ResultRequest :=
  { method := Method.post, url := base ++ "/ai/get_result_sd_task",
    body := [("task_id", JVal.s task_id)] }

/-- Embeds `ImageGeneration.get_result_sdxl_task`: POST a task_id JSON body to
the fixed sdxl result endpoint. -/
def get_result_sdxl_task (base task_id : String) : ResultRequest :=
  { method := Method.post, url := base ++ "/ai/get_result_sdxl_task",
    body := [("task_id", JVal.s task_id)] }

/-- Embeds `ImageGeneration.create_txt2img`: builds the flat configs dict
exactly as the source does.  Note the fourth key of the dict literal in the
source is spelled with U+01B0 (LATIN SMALL LETTER U WITH HORN): the Python
keyword is `ưidth=width`, so the serialized key is "ưidth", not "width". -/
def create_txt2img (base prompt model lora : String) (width height steps seed : Int)
    (negative_prompt : String) (enhance_prompt : Bool) : PostRequest :=
  { url := base ++ "/ai/image_generation",
    prompt := prompt,
    configs := [("model", JVal.s model), ("lora", JVal.s lora),
                ("height", JVal.i height), ("ưidth", JVal.i width),
                ("steps", JVal.i steps), ("negative_prompt", JVal.s negative_prompt),
                ("seed", JVal.i seed), ("enhance_prompt", JVal.b enhance_prompt)] }

/-- Embeds `ImageGeneration.result_txt2img`: GET with the task id in the path. -/
def result_txt2img (base task_id : String) : ResultRequest :=
  { method := Method.get, url := base ++ "/ai/image_generation/" ++ task_id, body := [] }

/-- Embeds `ImageGeneration.result_txt2vid`: GET with the task id in the path. -/
def result_txt2vid (base task_id : String) : ResultRequest :=
  { method := Method.get, url := base ++ "/ai/video_generation/" ++ task_id, body := [] }

/-- Embeds `AudioGeneration.result_txt2audio`: GET with the task id in the path. -/
def result_txt2audio (base task_id : String) : ResultRequest :=
  { method := Method.get, url := base ++ "/ai/audio_generation/" ++ task_id, body := [] }

/-- Embeds `TextGeneration.result_text_embedding`: GET with the task id in the path. -/
def result_text_embedding (base task_id : String) : ResultRequest :=
  { method := Method.get, url := base ++ "/ai/text_embedding/" ++ task_id, body := [] }

/-- Embeds `ImageGeneration.get_lora_models`: `params = \x7b\x7d` followed by the
two item assignments, so both keys are always present, `none` when the
argument was omitted. -/
def get_lora_models (base : String) (type cate : Option String) : GetRequest :=
  { method := Method.get, url := base ++ "/lora/",
    params := dset (dset ([] : List (String × Option String)) "type" type) "cate" cate }

/-! ## audio.py — AudioGeneration -/

/-- The `_kwargs_valids` table of `create_txt2audio`; `none` for a model name
that is not a key of the table (Python would raise KeyError on lookup). -/
def kwargsValids (model : String) : Option (List String) :=
  if model = "audiogen" then some ["duration", "top_k", "top_p"]
  else if model = "musicgen" then some ["duration", "top_k", "top_p"]
  else if model = "bark" then some []
  else none

/-- Error text of the kwarg check in `create_txt2audio` (joins the allow-list
plus prompt and model; the source misspells "support" as "suport"). -/
def txt2audioErrMsg (model k : String) (valids : List String) : String :=
  "Model `" ++ model ++ "` does not support keyword argument: `" ++ k ++
    "`. Only suport in [" ++
    String.intercalate ", " (valids ++ ["prompt", "model"]) ++ "]"

/-- The `for k, v in kwargs.items()` validation loop of `create_txt2audio`:
each kwarg key must belong to `_kwargs_valids[model]`; the table lookup
itself raises KeyError for an unknown model (only reached when there is at
least one kwarg). -/
def checkKwargs (model : String) : List (String × JVal) → Except PyError Unit
  | [] => Except.ok ()
  | (k, _) :: rest =>
    match kwargsValids model with
    | none => Except.error (.keyError model)
    | some valids =>
      if k ∈ valids then checkKwargs model rest
      else Except.error (.validationError (txt2audioErrMsg model k valids))

/-- The default-kwargs block of `create_txt2audio` (audio.py lines 39-42):
three `kwargs[name] = dflt if name not in kwargs else kwargs[name]`
assignments, in source order duration, top_k, top_p. -/
def backfillAudio (kwargs : List (String × JVal)) : List (String × JVal) :=
  dsetdefault (dsetdefault (dsetdefault kwargs "duration" (JVal.i 5))
    "top_k" (JVal.i 15)) "top_p" (JVal.f (9 / 10))

/-- Embeds `AudioGeneration.create_txt2audio`: validate the kwargs, backfill
duration/top_k/top_p defaults for audiogen and musicgen, then POST the
prompt with `configs = dict(model=model)` updated by the kwargs. -/
def create_txt2audio (base prompt model : String) (kwargs : List (String × JVal)) :
    Except PyError PostRequest := do
  checkKwargs model kwargs
  let kwargs2 :=
    if model = "audiogen" ∨ model = "musicgen" then backfillAudio kwargs
    else kwargs
  pure { url := base ++ "/ai/audio_generation", prompt := prompt,
         configs := dupdate [("model", JVal.s model)] kwargs2 }

/-! ## Generic facts about the embedded calls -/

theorem except_bind_ok {ε α β : Type} (a : α) (f : α → Except ε β) :
    (Except.ok a >>= f) = f a := rfl

theorem except_bind_err {ε α β : Type} (e : ε) (f : α → Except ε β) :
    ((Except.error e : Except ε α) >>= f) = Except.error e := rfl

/-! ## C9, C8, C5, C1, C7 -/

/-- C9: `createConfig` is a pure builder with no validation; with no
arguments (that is, all Python defaults) it returns exactly the record
rotation="square", steps=50, negative_prompt="", lora_weight_url="",
enhance_prompt=false, and for any arguments the returned record has exactly
the five fixed keys with `lora_weight_url` always the empty string. -/
theorem c9_create_config :
    create_config "square" 50 "" false =
      [("rotation", JVal.s "square"), ("steps", JVal.i 50),
       ("negative_prompt", JVal.s ""), ("lora_weight_url", JVal.s ""),
       ("enhance_prompt", JVal.b false)] ∧
    ∀ rotation steps negative_prompt enhance_prompt,
      (create_config rotation steps negative_prompt enhance_prompt).map Prod.fst =
        ["rotation", "steps", "negative_prompt", "lora_weight_url", "enhance_prompt"] ∧
      dget (create_config rotation steps negative_prompt enhance_prompt) "lora_weight_url" =
        some (JVal.s "") := by
  refine ⟨rfl, fun rotation steps negative_prompt enhance_prompt => ⟨rfl, ?_⟩⟩
  simp [create_config, dget]

/-- C8: `getResultSdTask` and `getResultSdxlTask` retrieve results with a
POST whose JSON body is the single pair task_id ↦ taskId, to fixed
endpoints, while the txt2img / txt2vid / txt2audio / embedding result calls
are GETs with the task id in the URL path and no body. -/
theorem c8_result_retrieval_shapes (base task_id : String) :
    (get_result_sd_task base task_id).method = Method.post ∧
    (get_result_sd_task base task_id).url = base ++ "/ai/get_result_sd_task" ∧
    (get_result_sd_task base task_id).body = [("task_id", JVal.s task_id)] ∧
    (get_result_sdxl_task base task_id).method = Method.post ∧
    (get_result_sdxl_task base task_id).url = base ++ "/ai/get_result_sdxl_task" ∧
    (get_result_sdxl_task base task_id).body = [("task_id", JVal.s task_id)] ∧
    (result_txt2img base task_id).method = Method.get ∧
    (result_txt2img base task_id).url = base ++ "/ai/image_generation/" ++ task_id ∧
    (result_txt2img base task_id).body = [] ∧
    (result_txt2vid base task_id).method = Method.get ∧
    (result_txt2vid base task_id).url = base ++ "/ai/video_generation/" ++ task_id ∧
    (result_txt2audio base task_id).method = Method.get ∧
    (result_txt2audio base task_id).url = base ++ "/ai/audio_generation/" ++ task_id ∧
    (result_text_embedding base task_id).method = Method.get ∧
    (result_text_embedding base task_id).url = base ++ "/ai/text_embedding/" ++ task_id :=
  ⟨rfl, rfl, rfl, rfl, rfl, rfl, rfl, rfl, rfl, rfl, rfl, rfl, rfl, rfl, rfl⟩

/-- C5: `getLoraModels` always sends both query-parameter keys, with a null
(`none`) value standing for each absent argument; in particular the
no-argument call sends type ↦ null, cate ↦ null. -/
theorem c5_get_lora_models_params (base : String) (type cate : Option String) :
    (get_lora_models base type cate).method = Method.get ∧
    (get_lora_models base type cate).url = base ++ "/lora/" ∧
    (get_lora_models base type cate).params = [("type", type), ("cate", cate)] ∧
    dget (get_lora_models base type cate).params "type" = some type ∧
    dget (get_lora_models base type cate).params "cate" = some cate ∧
    (get_lora_models base none none).params = [("type", none), ("cate", none)] := by
  refine ⟨rfl, rfl, rfl, ?_, ?_, rfl⟩ <;> simp [get_lora_models, dset, dget]

/-- C1 (the code at the failing input): every `createTxt2Img` call posts a
configs record whose fourth key is "ưidth" (spelled with U+01B0 LATIN SMALL
LETTER U WITH HORN), so the record carries no "width" key at all, contrary
to the claim and to the function docstring, which both name the field
`width`.  Shown here at the all-defaults call. -/
theorem c1_txt2img_width_key_bug :
    (create_txt2img "b" "p" "sdxl-lightning" "" 1024 1024 8 (-1) "" false).configs.map Prod.fst =
      ["model", "lora", "height", "ưidth", "steps", "negative_prompt", "seed", "enhance_prompt"] ∧
    "width" ∉ (create_txt2img "b" "p" "sdxl-lightning" "" 1024 1024 8 (-1) "" false).configs.map Prod.fst ∧
    dget (create_txt2img "b" "p" "sdxl-lightning" "" 1024 1024 8 (-1) "" false).configs "ưidth" =
      some (JVal.i 1024) ∧
    dget (create_txt2img "b" "p" "sdxl-lightning" "" 1024 1024 8 (-1) "" false).configs "width" =
      none := by
  refine ⟨rfl, by decide, by decide, by decide⟩

/-- C7: `getModels` fails with ValidationError exactly when the task is not
one of the five listed names, the failure is local (no request value is
produced), the error text mentions every valid choice, and a valid task
yields a GET of the models endpoint for that task. -/
theorem c7_get_models_validation (base task : String) :
    ((∃ e, get_models base task = Except.error (PyError.validationError e)) ↔
      task ∉ valid_tasks) ∧
    (task ∈ valid_tasks →
      get_models base task =
        Except.ok ⟨Method.get, base ++ "/models/" ++ task, []⟩) ∧
    (∀ t ∈ valid_tasks, t.data <:+: get_models_err.data) := by
  refine ⟨?_, fun h => by simp [get_models, h], by decide⟩
  by_cases h : task ∈ valid_tasks <;> simp [get_models, h]

/-- Closed instance of `c7_get_models_validation`: the bogus task fails with
ValidationError, a valid one produces the GET request. -/
theorem c7_get_models_validation_witness :
    (∃ e, get_models "b" "bogus" = Except.error (PyError.validationError e)) ∧
    get_models "b" "image_generation" =
      Except.ok ⟨Method.get, "b" ++ "/models/" ++ "image_generation", []⟩ :=
  ⟨(c7_get_models_validation "b" "bogus").1.mpr (by decide),
   (c7_get_models_validation "b" "image_generation").2.1 (by decide)⟩

/-! ## Message validation: C4 and C6 -/

/-- Spec-side well-formedness of one chat message: key-set exactly
(role, content), and a string-valued role among the three allowed values. -/
def goodMsg (m : Msg) : Prop :=
  (m.map Prod.fst).toFinset = ({"role", "content"} : Finset String) ∧
  ∃ r ∈ allowedRoles, dget m "role" = some (JVal.s r)

instance (m : Msg) : Decidable (goodMsg m) := by
  unfold goodMsg
  infer_instance

theorem validateMessage_ok_iff (m : Msg) :
    validateMessage m = Except.ok () ↔ goodMsg m := by
  unfold validateMessage goodMsg keysetOk
  by_cases hk : (m.map Prod.fst).toFinset = ({"role", "content"} : Finset String)
  · simp only [hk, decide_true_eq_true, if_true]
    cases hr : dget m "role" with
    | none => simp [hr]
    | some v =>
      cases v with
      | s r =>
        by_cases hmem : r ∈ allowedRoles
        · simp [hr, hmem]
        · simp only [hmem, if_false]
          constructor
          · intro hc
            exact Except.noConfusion hc
          · rintro ⟨-, r2, hr2, hv⟩
            obtain rfl : r = r2 := JVal.s.inj (Option.some.inj hv)
            exact absurd hr2 hmem
      | i n => simp [hr]
      | f q => simp [hr]
      | b bb => simp [hr]
      | null => simp [hr]
  · have hkb : (decide ((m.map Prod.fst).toFinset = ({"role", "content"} : Finset String))) = false := by
      simpa using hk
    simp [hkb, hk]

theorem validateMessages_ok_iff (msgs : List Msg) :
    validateMessages msgs = Except.ok () ↔ ∀ m ∈ msgs, goodMsg m := by
  induction msgs with
  | nil => simp [validateMessages]
  | cons m rest ih =>
    cases hv : validateMessage m with
    | ok u =>
      obtain rfl : u = () := rfl
      have hg := (validateMessage_ok_iff m).mp hv
      simp [validateMessages, hv, except_bind_ok, ih, hg]
    | error e =>
      have hng : ¬ goodMsg m := fun hg => by
        rw [← validateMessage_ok_iff m, hv] at hg
        exact Except.noConfusion hg
      simp [validateMessages, hv, except_bind_err, hng]

theorem validateMessages_cases (msgs : List Msg) :
    validateMessages msgs = Except.ok () ∨
      ∃ s, validateMessages msgs = Except.error (PyError.validationError s) := by
  induction msgs with
  | nil => exact Or.inl rfl
  | cons m rest ih =>
    have hm : validateMessage m = Except.ok () ∨
        ∃ s, validateMessage m = Except.error (PyError.validationError s) := by
      unfold validateMessage
      by_cases hk : keysetOk m = true
      · simp only [hk, if_true]
        cases dget m "role" with
        | none => exact Or.inr ⟨_, rfl⟩
        | some v =>
          cases v with
          | s r =>
            by_cases hr : r ∈ allowedRoles
            · exact Or.inl (by simp [hr])
            · exact Or.inr ⟨msgRoleErr, by simp [hr]⟩
          | i n => exact Or.inr ⟨_, rfl⟩
          | f q => exact Or.inr ⟨_, rfl⟩
          | b bb => exact Or.inr ⟨_, rfl⟩
          | null => exact Or.inr ⟨_, rfl⟩
      · rw [if_neg hk]
        exact Or.inr ⟨_, rfl⟩
    rcases hm with hok | ⟨s, herr⟩
    · rcases ih with hro | ⟨s, hre⟩
      · exact Or.inl (by simp [validateMessages, hok, except_bind_ok, hro])
      · exact Or.inr ⟨s, by simp [validateMessages, hok, except_bind_ok, hre]⟩
    · exact Or.inr ⟨s, by simp [validateMessages, herr, except_bind_err]⟩

theorem text_generation_eq_ok (base : String) (messages : List Msg) (model : String)
    (temperature : ℚ) (top_k : Int) (top_p : ℚ) (max_tokens : Int)
    (h : validateMessages messages = Except.ok ()) :
    text_generation base messages model temperature top_k top_p max_tokens =
      Except.ok
        { url := base ++ "/ai/text_completion",
          messages := messages,
          configs := [("model", JVal.s model), ("temperature", JVal.f temperature),
                      ("top_k", JVal.i top_k), ("top_p", JVal.f top_p),
                      ("max_new_tokens", JVal.i max_tokens)] } := by
  unfold text_generation
  rw [h]
  rfl

theorem text_generation_eq_err (base : String) (messages : List Msg) (model : String)
    (temperature : ℚ) (top_k : Int) (top_p : ℚ) (max_tokens : Int) (e : PyError)
    (h : validateMessages messages = Except.error e) :
    text_generation base messages model temperature top_k top_p max_tokens =
      Except.error e := by
  unfold text_generation
  rw [h]
  rfl

theorem generate_text_stream_eq_err (base : String) (messages : List Msg) (model : String)
    (temperature : ℚ) (top_k : Int) (top_p : ℚ) (max_tokens : Int)
    (response : HttpResponse) (e : PyError)
    (h : validateMessages messages = Except.error e) :
    generate_text_stream base messages model temperature top_k top_p max_tokens response =
      Except.error e := by
  unfold generate_text_stream
  rw [h]
  rfl

theorem generate_text_stream_of_valid (base : String) (messages : List Msg) (model : String)
    (temperature : ℚ) (top_k : Int) (top_p : ℚ) (max_tokens : Int)
    (response : HttpResponse)
    (h : validateMessages messages = Except.ok ()) :
    generate_text_stream base messages model temperature top_k top_p max_tokens response =
      if 400 ≤ response.status ∧ response.status < 600 then
        Except.error (PyError.httpError response.status)
      else Except.ok (response.lines.filter (fun l => l != "")) := by
  unfold generate_text_stream raise_for_status
  rw [h]
  by_cases hs : 400 ≤ response.status ∧ response.status < 600
  · simp [hs, except_bind_ok, except_bind_err]
  · simp [hs, except_bind_ok]

/-- C4: `textGeneration` and `generateTextStream` fail with ValidationError
exactly when the messages list is not a sequence of well-formed Message
records (key-set exactly role/content, role among the three allowed
values). -/
theorem c4_messages_validation_iff (base : String) (messages : List Msg) (model : String)
    (temperature : ℚ) (top_k : Int) (top_p : ℚ) (max_tokens : Int)
    (response : HttpResponse) :
    ((∃ e, text_generation base messages model temperature top_k top_p max_tokens =
        Except.error (PyError.validationError e)) ↔ ¬ ∀ m ∈ messages, goodMsg m) ∧
    ((∃ e, generate_text_stream base messages model temperature top_k top_p max_tokens response =
        Except.error (PyError.validationError e)) ↔ ¬ ∀ m ∈ messages, goodMsg m) := by
  rcases validateMessages_cases messages with hok | ⟨s, herr⟩
  · have hall := (validateMessages_ok_iff messages).mp hok
    constructor
    · rw [text_generation_eq_ok _ _ _ _ _ _ _ hok]
      simp
      exact hall
    · rw [generate_text_stream_of_valid _ _ _ _ _ _ _ _ hok]
      by_cases hs : 400 ≤ response.status ∧ response.status < 600 <;>
        · simp [hs]
          exact hall
  · have hnall : ¬ ∀ m ∈ messages, goodMsg m := fun hall => by
      rw [(validateMessages_ok_iff messages).mpr hall] at herr
      exact Except.noConfusion herr
    constructor
    · rw [text_generation_eq_err _ _ _ _ _ _ _ _ herr]
      simp [hnall]
    · rw [generate_text_stream_eq_err _ _ _ _ _ _ _ _ _ herr]
      simp [hnall]

/-- Closed instance of `c4_messages_validation_iff`: a message with a bad
role fails, a message with an extra key fails. -/
theorem c4_messages_validation_iff_witness :
    (∃ e, text_generation "b" [[("role", JVal.s "ceo"), ("content", JVal.s "hi")]]
        "gemma-7b" (7 / 10) 50 (19 / 20) 256 =
      Except.error (PyError.validationError e)) ∧
    (∃ e, generate_text_stream "b" [[("role", JVal.s "user"), ("content", JVal.s "hi"),
          ("extra", JVal.i 1)]] "gemma-7b" (7 / 10) 50 (19 / 20) 256 ⟨200, []⟩ =
      Except.error (PyError.validationError e)) :=
  ⟨(c4_messages_validation_iff "b" [[("role", JVal.s "ceo"), ("content", JVal.s "hi")]]
      "gemma-7b" (7 / 10) 50 (19 / 20) 256 ⟨200, []⟩).1.mpr (by decide),
   (c4_messages_validation_iff "b" [[("role", JVal.s "user"), ("content", JVal.s "hi"),
      ("extra", JVal.i 1)]] "gemma-7b" (7 / 10) 50 (19 / 20) 256 ⟨200, []⟩).2.mpr (by decide)⟩

/-! ## C6: streaming status handling -/

/-- C6 counterexample: a 304 response status is not 2xx, yet
`generate_text_stream` (whose only status check is `raise_for_status`,
raising solely on 4xx/5xx) does not raise — it yields the body line.  So
"fails fast on a non-2xx status" is false as stated. -/
theorem c6_counterexample_status304 :
    ¬ (200 ≤ 304 ∧ 304 < 300) ∧
    generate_text_stream "b" [] "gemma-7b" (7 / 10) 50 (19 / 20) 256
        ⟨304, ["data"]⟩ = Except.ok ["data"] := by
  exact ⟨by decide, rfl⟩

/-- C6 (amended): for a valid messages list, if the streaming POST returns a
4xx or 5xx status the call raises before yielding any line, and for a 2xx
status it produces exactly the non-empty lines of the response body, in
order. -/
theorem c6_stream_error_handling (base : String) (messages : List Msg) (model : String)
    (temperature : ℚ) (top_k : Int) (top_p : ℚ) (max_tokens : Int)
    (response : HttpResponse)
    (hvalid : ∀ m ∈ messages, goodMsg m) :
    (400 ≤ response.status ∧ response.status < 600 →
      generate_text_stream base messages model temperature top_k top_p max_tokens response =
        Except.error (PyError.httpError response.status)) ∧
    (200 ≤ response.status ∧ response.status < 300 →
      generate_text_stream base messages model temperature top_k top_p max_tokens response =
        Except.ok (response.lines.filter (fun l => l != ""))) := by
  have hok := (validateMessages_ok_iff messages).mpr hvalid
  rw [generate_text_stream_of_valid _ _ _ _ _ _ _ _ hok]
  constructor
  · intro hs
    rw [if_pos hs]
  · intro hs
    rw [if_neg (by omega)]

/-- Closed instance of `c6_stream_error_handling`: a 500 status raises
before yielding, a 200 status yields exactly the non-empty lines in order. -/
theorem c6_stream_error_handling_witness :
    generate_text_stream "b" [[("role", JVal.s "user"), ("content", JVal.s "hi")]]
        "gemma-7b" (7 / 10) 50 (19 / 20) 256 ⟨500, ["x"]⟩ =
      Except.error (PyError.httpError 500) ∧
    generate_text_stream "b" [[("role", JVal.s "user"), ("content", JVal.s "hi")]]
        "gemma-7b" (7 / 10) 50 (19 / 20) 256 ⟨200, ["a", "", "b"]⟩ =
      Except.ok ["a", "b"] := by
  constructor
  · exact (c6_stream_error_handling "b" [[("role", JVal.s "user"), ("content", JVal.s "hi")]]
      "gemma-7b" (7 / 10) 50 (19 / 20) 256 ⟨500, ["x"]⟩ (by decide)).1 (by decide)
  · exact (c6_stream_error_handling "b" [[("role", JVal.s "user"), ("content", JVal.s "hi")]]
      "gemma-7b" (7 / 10) 50 (19 / 20) 256 ⟨200, ["a", "", "b"]⟩ (by decide)).2 (by decide)

/-! ## Audio kwargs: C2, C3, C10 -/

theorem map_fst_dset_subset {α : Type} (d : List (String × α)) (k : String) (v : α) :
    (dset d k v).map Prod.fst ⊆ d.map Prod.fst ++ [k] := by
  rw [map_fst_dset]
  by_cases hs : (dget d k).isSome
  · rw [if_pos hs]
    exact List.subset_append_left _ _
  · rw [if_neg hs]
    exact List.Subset.refl _

theorem map_fst_dupdate_subset {α : Type} (d l : List (String × α)) :
    (dupdate d l).map Prod.fst ⊆ d.map Prod.fst ++ l.map Prod.fst := by
  induction l generalizing d with
  | nil => simp [dupdate]
  | cons p rest ih =>
    intro a ha
    have h1 := ih (dset d p.1 p.2) ha
    rw [List.mem_append] at h1
    rcases h1 with h1 | h1
    · have h2 := map_fst_dset_subset d p.1 p.2 h1
      rw [List.mem_append] at h2
      simp only [List.map_cons, List.mem_append, List.mem_cons]
      rcases h2 with h2 | h2
      · exact Or.inl h2
      · exact Or.inr (Or.inl (by simpa using h2))
    · simp only [List.map_cons, List.mem_append, List.mem_cons]
      exact Or.inr (Or.inr h1)

theorem checkKwargs_ok (model : String) (kwargs : List (String × JVal)) (valids : List String)
    (hm : kwargsValids model = some valids) (h : ∀ p ∈ kwargs, p.1 ∈ valids) :
    checkKwargs model kwargs = Except.ok () := by
  induction kwargs with
  | nil => rfl
  | cons p rest ih =>
    obtain ⟨k, v⟩ := p
    have hk : k ∈ valids := h (k, v) (List.mem_cons_self _ _)
    simp only [checkKwargs, hm, hk, if_true]
    exact ih fun q hq => h q (List.mem_cons_of_mem _ hq)

theorem checkKwargs_err (model : String) (kwargs : List (String × JVal)) (valids : List String)
    (hm : kwargsValids model = some valids) (h : ∃ p ∈ kwargs, p.1 ∉ valids) :
    ∃ k, k ∉ valids ∧
      checkKwargs model kwargs =
        Except.error (PyError.validationError (txt2audioErrMsg model k valids)) := by
  induction kwargs with
  | nil => simp at h
  | cons p rest ih =>
    obtain ⟨k, v⟩ := p
    by_cases hk : k ∈ valids
    · have hrest : ∃ q ∈ rest, q.1 ∉ valids := by
        rcases h with ⟨q, hq, hnq⟩
        rcases List.mem_cons.mp hq with rfl | hq2
        · exact absurd hk hnq
        · exact ⟨q, hq2, hnq⟩
      obtain ⟨k2, hk2, heq⟩ := ih hrest
      exact ⟨k2, hk2, by simp [checkKwargs, hm, hk, heq]⟩
    · exact ⟨k, hk, by simp [checkKwargs, hm, hk]⟩

theorem create_txt2audio_eq_err (base prompt model : String) (kwargs : List (String × JVal))
    (e : PyError) (h : checkKwargs model kwargs = Except.error e) :
    create_txt2audio base prompt model kwargs = Except.error e := by
  unfold create_txt2audio
  rw [h]
  rfl

theorem create_txt2audio_eq_ok (base prompt model : String) (kwargs : List (String × JVal))
    (h : checkKwargs model kwargs = Except.ok ()) :
    create_txt2audio base prompt model kwargs =
      Except.ok
        { url := base ++ "/ai/audio_generation",
          prompt := prompt,
          configs := dupdate [("model", JVal.s model)]
            (if model = "audiogen" ∨ model = "musicgen" then backfillAudio kwargs
             else kwargs) } := by
  unfold create_txt2audio
  rw [h]
  rfl

theorem dget_backfillAudio_duration (kwargs : List (String × JVal)) :
    dget (backfillAudio kwargs) "duration" =
      some ((dget kwargs "duration").getD (JVal.i 5)) := by
  unfold backfillAudio
  rw [dget_dsetdefault_ne _ _ _ _ (by decide), dget_dsetdefault_ne _ _ _ _ (by decide),
    dget_dsetdefault_self]

theorem dget_backfillAudio_top_k (kwargs : List (String × JVal)) :
    dget (backfillAudio kwargs) "top_k" =
      some ((dget kwargs "top_k").getD (JVal.i 15)) := by
  unfold backfillAudio
  rw [dget_dsetdefault_ne _ _ _ _ (by decide), dget_dsetdefault_self,
    dget_dsetdefault_ne _ _ _ _ (by decide)]

theorem dget_backfillAudio_top_p (kwargs : List (String × JVal)) :
    dget (backfillAudio kwargs) "top_p" =
      some ((dget kwargs "top_p").getD (JVal.f (9 / 10))) := by
  unfold backfillAudio
  rw [dget_dsetdefault_self, dget_dsetdefault_ne _ _ _ _ (by decide),
    dget_dsetdefault_ne _ _ _ _ (by decide)]

theorem dget_backfillAudio_other (kwargs : List (String × JVal)) (k : String)
    (h1 : k ≠ "duration") (h2 : k ≠ "top_k") (h3 : k ≠ "top_p") :
    dget (backfillAudio kwargs) k = dget kwargs k := by
  unfold backfillAudio
  rw [dget_dsetdefault_ne _ _ _ _ h3, dget_dsetdefault_ne _ _ _ _ h2,
    dget_dsetdefault_ne _ _ _ _ h1]

theorem nodup_backfillAudio (kwargs : List (String × JVal))
    (hnd : (kwargs.map Prod.fst).Nodup) :
    ((backfillAudio kwargs).map Prod.fst).Nodup := by
  unfold backfillAudio dsetdefault
  exact nodup_map_fst_dset _ _ _ (nodup_map_fst_dset _ _ _ (nodup_map_fst_dset _ _ _ hnd))

theorem map_fst_backfillAudio_subset (kwargs : List (String × JVal)) :
    (backfillAudio kwargs).map Prod.fst ⊆
      kwargs.map Prod.fst ++ ["duration", "top_k", "top_p"] := by
  unfold backfillAudio dsetdefault
  intro a ha
  have h3 := map_fst_dset_subset _ _ _ ha
  rw [List.mem_append] at h3
  rcases h3 with h3 | h3
  · have h2 := map_fst_dset_subset _ _ _ h3
    rw [List.mem_append] at h2
    rcases h2 with h2 | h2
    · have h1 := map_fst_dset_subset _ _ _ h2
      rw [List.mem_append] at h1
      rcases h1 with h1 | h1
      · exact List.mem_append.mpr (Or.inl h1)
      · rw [List.mem_singleton] at h1
        subst h1
        simp
    · rw [List.mem_singleton] at h2
      subst h2
      simp
  · rw [List.mem_singleton] at h3
    subst h3
    simp

/-- C2: for audiogen/musicgen with kwarg keys inside the allow-list, the
posted configs carry model plus duration, top_k, top_p, each equal to the
caller-supplied value when present and to the default (duration=5,
top_k=15, top_p=0.9) otherwise, and no other key. -/
theorem c2_txt2audio_defaults (base prompt model : String) (kwargs : List (String × JVal))
    (hmodel : model = "audiogen" ∨ model = "musicgen")
    (hnd : (kwargs.map Prod.fst).Nodup)
    (hkeys : ∀ p ∈ kwargs, p.1 ∈ ["duration", "top_k", "top_p"]) :
    ∃ req : PostRequest,
      create_txt2audio base prompt model kwargs = Except.ok req ∧
      req.url = base ++ "/ai/audio_generation" ∧
      req.prompt = prompt ∧
      dget req.configs "model" = some (JVal.s model) ∧
      dget req.configs "duration" = some ((dget kwargs "duration").getD (JVal.i 5)) ∧
      dget req.configs "top_k" = some ((dget kwargs "top_k").getD (JVal.i 15)) ∧
      dget req.configs "top_p" = some ((dget kwargs "top_p").getD (JVal.f (9 / 10))) ∧
      req.configs.map Prod.fst ⊆ ["model", "duration", "top_k", "top_p"] := by
  have hvalids : kwargsValids model = some ["duration", "top_k", "top_p"] := by
    rcases hmodel with rfl | rfl <;> rfl
  have hchk := checkKwargs_ok model kwargs _ hvalids hkeys
  have heq : create_txt2audio base prompt model kwargs =
      Except.ok
        { url := base ++ "/ai/audio_generation",
          prompt := prompt,
          configs := dupdate [("model", JVal.s model)] (backfillAudio kwargs) } := by
    rw [create_txt2audio_eq_ok base prompt model kwargs hchk, if_pos hmodel]
  have hnd3 := nodup_backfillAudio kwargs hnd
  have hmodel_none : dget (backfillAudio kwargs) "model" = none := by
    rw [dget_backfillAudio_other kwargs "model" (by decide) (by decide) (by decide),
      dget_eq_none_iff]
    intro hmem
    rw [List.mem_map] at hmem
    obtain ⟨p, hp, hp1⟩ := hmem
    have hin := hkeys p hp
    rw [hp1] at hin
    simp at hin
  refine ⟨_, heq, rfl, rfl, ?_, ?_, ?_, ?_, ?_⟩
  · rw [dget_dupdate_of_none _ _ _ hmodel_none]
    simp [dget]
  · exact dget_dupdate_of_some _ _ _ _ hnd3 (dget_backfillAudio_duration kwargs)
  · exact dget_dupdate_of_some _ _ _ _ hnd3 (dget_backfillAudio_top_k kwargs)
  · exact dget_dupdate_of_some _ _ _ _ hnd3 (dget_backfillAudio_top_p kwargs)
  · intro a ha
    have h1 := map_fst_dupdate_subset [("model", JVal.s model)] (backfillAudio kwargs) ha
    rw [List.mem_append] at h1
    rcases h1 with h1 | h1
    · rw [show ([("model", JVal.s model)].map Prod.fst) = ["model"] from rfl,
        List.mem_singleton] at h1
      subst h1
      simp
    · have h2 := map_fst_backfillAudio_subset kwargs h1
      rw [List.mem_append] at h2
      rcases h2 with h2 | h2
      · rw [List.mem_map] at h2
        obtain ⟨p, hp, hp1⟩ := h2
        have hin := hkeys p hp
        rw [hp1] at hin
        simp only [List.mem_cons, List.not_mem_nil, or_false] at hin ⊢
        tauto
      · simp only [List.mem_cons, List.not_mem_nil, or_false] at h2 ⊢
        tauto

/-- Closed instance of `c2_txt2audio_defaults`: the no-kwargs musicgen call
gets all three defaults, and a call supplying only top_k=99 keeps 99 and
defaults the others. -/
theorem c2_txt2audio_defaults_witness :
    (∃ req : PostRequest,
      create_txt2audio "b" "p" "musicgen" [] = Except.ok req ∧
      dget req.configs "model" = some (JVal.s "musicgen") ∧
      dget req.configs "duration" = some (JVal.i 5) ∧
      dget req.configs "top_k" = some (JVal.i 15) ∧
      dget req.configs "top_p" = some (JVal.f (9 / 10))) ∧
    (∃ req : PostRequest,
      create_txt2audio "b" "p" "musicgen" [("top_k", JVal.i 99)] = Except.ok req ∧
      dget req.configs "top_k" = some (JVal.i 99) ∧
      dget req.configs "duration" = some (JVal.i 5) ∧
      dget req.configs "top_p" = some (JVal.f (9 / 10))) := by
  constructor
  · obtain ⟨req, h1, -, -, h4, h5, h6, h7, -⟩ :=
      c2_txt2audio_defaults "b" "p" "musicgen" [] (Or.inr rfl) (by decide) (by decide)
    exact ⟨req, h1, h4, by simpa [dget] using h5, by simpa [dget] using h6,
      by simpa [dget] using h7⟩
  · obtain ⟨req, h1, -, -, -, h5, h6, h7, -⟩ :=
      c2_txt2audio_defaults "b" "p" "musicgen" [("top_k", JVal.i 99)] (Or.inr rfl)
        (by decide) (by decide)
    exact ⟨req, h1, by simpa [dget] using h6, by simpa [dget] using h5,
      by simpa [dget] using h7⟩

/-- C3: for a model with an allow-list (audiogen, musicgen, bark), a kwarg
key outside the list makes the call fail with ValidationError whose message
contains the comma-joined enumeration of the accepted names, while kwargs
inside the list never raise; in particular bark (empty allow-list) rejects
duration=5. -/
theorem c3_txt2audio_kwarg_allowlist (base prompt model : String)
    (kwargs : List (String × JVal)) (valids : List String)
    (hm : kwargsValids model = some valids) :
    ((∃ p ∈ kwargs, p.1 ∉ valids) →
      ∃ msg, create_txt2audio base prompt model kwargs =
          Except.error (PyError.validationError msg) ∧
        ∃ pre suf,
          msg = pre ++ String.intercalate ", " (valids ++ ["prompt", "model"]) ++ suf) ∧
    ((∀ p ∈ kwargs, p.1 ∈ valids) →
      ∃ req, create_txt2audio base prompt model kwargs = Except.ok req) ∧
    (∃ msg, create_txt2audio base prompt "bark" [("duration", JVal.i 5)] =
      Except.error (PyError.validationError msg)) := by
  refine ⟨?_, ?_, ?_⟩
  · intro h
    obtain ⟨k, hk, heq⟩ := checkKwargs_err model kwargs valids hm h
    exact ⟨txt2audioErrMsg model k valids,
      create_txt2audio_eq_err base prompt model kwargs _ heq,
      "Model `" ++ model ++ "` does not support keyword argument: `" ++ k ++
        "`. Only suport in [",
      "]", rfl⟩
  · intro h
    exact ⟨_, create_txt2audio_eq_ok base prompt model kwargs
      (checkKwargs_ok model kwargs valids hm h)⟩
  · exact ⟨txt2audioErrMsg "bark" "duration" [],
      create_txt2audio_eq_err base prompt "bark" _ _ (by rfl)⟩

/-- Closed instance of `c3_txt2audio_kwarg_allowlist`: a disallowed kwarg
(volume) on musicgen fails with the enumerating ValidationError, an allowed
one (duration) succeeds, and bark rejects duration. -/
theorem c3_txt2audio_kwarg_allowlist_witness :
    (∃ msg, create_txt2audio "b" "p" "musicgen" [("volume", JVal.i 1)] =
        Except.error (PyError.validationError msg) ∧
      ∃ pre suf,
        msg = pre ++
          String.intercalate ", " (["duration", "top_k", "top_p"] ++ ["prompt", "model"]) ++
          suf) ∧
    (∃ req, create_txt2audio "b" "p" "musicgen" [("duration", JVal.i 2)] =
      Except.ok req) ∧
    (∃ msg, create_txt2audio "b" "p" "bark" [("duration", JVal.i 5)] =
      Except.error (PyError.validationError msg)) := by
  obtain ⟨h1, -, h3⟩ := c3_txt2audio_kwarg_allowlist "b" "p" "musicgen"
    [("volume", JVal.i 1)] ["duration", "top_k", "top_p"] (by decide)
  obtain ⟨-, h2, -⟩ := c3_txt2audio_kwarg_allowlist "b" "p" "musicgen"
    [("duration", JVal.i 2)] ["duration", "top_k", "top_p"] (by decide)
  exact ⟨h1 (by decide), h2 (by decide), h3⟩

/-- C10: for a model name outside the allow-list table, `createTxt2Audio`
does not validate the model itself: any kwarg triggers a KeyError (table
lookup), not ValidationError, while with no kwargs no local error occurs
and the posted configs are just the model entry. -/
theorem c10_unknown_model (base prompt model : String) (kwargs : List (String × JVal))
    (hmodel : model ∉ ["audiogen", "musicgen", "bark"]) :
    (kwargs ≠ [] →
      create_txt2audio base prompt model kwargs = Except.error (PyError.keyError model)) ∧
    create_txt2audio base prompt model [] =
      Except.ok
        { url := base ++ "/ai/audio_generation",
          prompt := prompt,
          configs := [("model", JVal.s model)] } := by
  have h1 : model ≠ "audiogen" := fun h => hmodel (by simp [h])
  have h2 : model ≠ "musicgen" := fun h => hmodel (by simp [h])
  have h3 : model ≠ "bark" := fun h => hmodel (by simp [h])
  have hv : kwargsValids model = none := by
    simp [kwargsValids, h1, h2, h3]
  constructor
  · intro hne
    obtain ⟨p, rest, rfl⟩ := List.exists_cons_of_ne_nil hne
    refine create_txt2audio_eq_err base prompt model _ _ ?_
    obtain ⟨k, v⟩ := p
    simp [checkKwargs, hv]
  · have hchk : checkKwargs model ([] : List (String × JVal)) = Except.ok () := rfl
    rw [create_txt2audio_eq_ok base prompt model [] hchk,
      if_neg (not_or.mpr ⟨h1, h2⟩)]
    rfl

/-- Closed instance of `c10_unknown_model`: an unknown model with a kwarg
fails with KeyError, and with no kwargs the request is posted with just the
model in its configs. -/
theorem c10_unknown_model_witness :
    create_txt2audio "b" "p" "whisper" [("duration", JVal.i 5)] =
      Except.error (PyError.keyError "whisper") ∧
    create_txt2audio "b" "p" "whisper" [] =
      Except.ok
        { url := "b" ++ "/ai/audio_generation",
          prompt := "p",
          configs := [("model", JVal.s "whisper")] } := by
  obtain ⟨h1, h2⟩ :=
    c10_unknown_model "b" "p" "whisper" [("duration", JVal.i 5)] (by decide)
  exact ⟨h1 (by decide), h2⟩
